import Mathlib

set_option maxHeartbeats 1000000

/- Shallow embedding of the image annotation/filter compositor of
   gemini-vision-chat: src/components/ImageEditModal.tsx and
   src/components/InputBar.tsx.  Pixel values and coordinates are modelled
   over ℚ (idealised, exact arithmetic); JavaScript objects with possibly
   missing fields are modelled with Option-valued fields. -/

/-- Filter state of the edit modal (ImageEditModal.tsx, interface ImageFilters). -/
structure ImageFilters where
  rotation : ℚ
  inverted : Bool
  sepia : Bool
  grayscale : Bool
  blur : ℚ
  brightness : ℚ
  contrast : ℚ
  deriving DecidableEq, Repr

/-- ImageEditModal.tsx lines 42-50: the constant defaultFilters. -/
def defaultFilters : ImageFilters :=
  { rotation := 0
  , inverted := false
  , sepia := false
  , grayscale := false
  , blur := 0
  , brightness := 100
  , contrast := 100 }

/-- One atomic CSS-filter descriptor produced by applyFilters: the
descriptor name together with its magnitude where the magnitude is not the
fixed 100%.  (The joined CSS string of the source is the rendering of this
list; the chain itself is this ordered list.) -/
inductive FilterDescriptor where
  | invert : FilterDescriptor
  | sepia : FilterDescriptor
  | grayscale : FilterDescriptor
  | blur : ℚ → FilterDescriptor
  | brightness : ℚ → FilterDescriptor
  | contrast : ℚ → FilterDescriptor
  deriving DecidableEq, Repr

/-- ImageEditModal.tsx lines 198-207 (applyFilters): builds the ordered
filter chain by conditional pushes, in source order
invert, sepia, grayscale, blur, brightness, contrast. -/
def applyFilters (f : ImageFilters) : List FilterDescriptor :=
  (if f.inverted then [FilterDescriptor.invert] else []) ++
  (if f.sepia then [FilterDescriptor.sepia] else []) ++
  (if f.grayscale then [FilterDescriptor.grayscale] else []) ++
  (if f.blur > 0 then [FilterDescriptor.blur f.blur] else []) ++
  (if f.brightness ≠ 100 then [FilterDescriptor.brightness f.brightness] else []) ++
  (if f.contrast ≠ 100 then [FilterDescriptor.contrast f.contrast] else [])

/-- Spec-side description of the chain (spec §4.1): exactly the descriptors
of the fields differing from their defaults (inverted/sepia/grayscale when
true, blur when > 0, brightness/contrast when ≠ 100), in the fixed order
invert, sepia, grayscale, blur, brightness, contrast. -/
def renderFilterChainSpec (f : ImageFilters) : List FilterDescriptor :=
  (if f.inverted ≠ defaultFilters.inverted then [FilterDescriptor.invert] else []) ++
  (if f.sepia ≠ defaultFilters.sepia then [FilterDescriptor.sepia] else []) ++
  (if f.grayscale ≠ defaultFilters.grayscale then [FilterDescriptor.grayscale] else []) ++
  (if f.blur > defaultFilters.blur then [FilterDescriptor.blur f.blur] else []) ++
  (if f.brightness ≠ defaultFilters.brightness then [FilterDescriptor.brightness f.brightness] else []) ++
  (if f.contrast ≠ defaultFilters.contrast then [FilterDescriptor.contrast f.contrast] else [])

/-- Layout metrics stored by updateCanvasSize (ImageEditModal.tsx
lines 88-93, layoutMetricsRef). -/
structure LayoutMetrics where
  offsetX : ℚ
  offsetY : ℚ
  displayWidth : ℚ
  displayHeight : ℚ
  deriving DecidableEq, Repr

/-- ImageEditModal.tsx lines 149-194 (updateCanvasSize): the layout
computation, as a function of the container bounding rect, the intrinsic
image size and the current rotation.  Lines 171-172 subtract 32 pixels of
padding from each container dimension before the aspect fit; lines 190-191
centre the display rectangle with respect to the full (unpadded)
container rect. -/
def updateCanvasSize (containerRectW containerRectH imgW imgH rotation : ℚ) :
    LayoutMetrics :=
  let containerWidth := containerRectW - 32
  let containerHeight := containerRectH - 32
  let imgWidth := if rotation = 90 ∨ rotation = 270 then imgH else imgW
  let imgHeight := if rotation = 90 ∨ rotation = 270 then imgW else imgH
  let imgAspect := imgWidth / imgHeight
  let containerAspect := containerWidth / containerHeight
  let displayWidth := if imgAspect > containerAspect then containerWidth
    else containerHeight * imgAspect
  let displayHeight := if imgAspect > containerAspect then containerWidth / imgAspect
    else containerHeight
  { offsetX := (containerRectW - displayWidth) / 2
  , offsetY := (containerRectH - displayHeight) / 2
  , displayWidth := displayWidth
  , displayHeight := displayHeight }

/-- One RGBA pixel of the drawing canvas. -/
structure Pixel where
  r : ℕ
  g : ℕ
  b : ℕ
  a : ℕ
  deriving DecidableEq, Repr

/-- The flat RGBA data array of a canvas, as produced by getImageData:
four consecutive entries (r, g, b, a) per pixel. -/
def pixelData (raster : List Pixel) : List ℕ :=
  raster.flatMap (fun p => [p.r, p.g, p.b, p.a])

/-- ImageEditModal.tsx lines 240-246 (hasDrawing): scans the flat RGBA
data with the predicate index % 4 !== 3 && value !== 0, i.e. looks for a
nonzero value in a non-alpha channel. -/
def hasDrawing (raster : List Pixel) : Bool :=
  (pixelData raster).enum.any (fun p => p.1 % 4 != 3 && p.2 != 0)

/-- One text annotation record (ImageEditModal.tsx, interface at
lines 23-30). -/
structure TextAnn where
  id : String
  text : String
  x : ℚ
  y : ℚ
  color : String
  size : ℚ
  deriving DecidableEq, Repr

/-- The overlay payload handed to onUpdate: either the full uncropped
canvas raster, or the raster together with the crop rectangle
(offsetX, offsetY, displayWidth, displayHeight). -/
inductive DrawingData where
  | full : List Pixel → DrawingData
  | cropped : List Pixel → ℚ → ℚ → ℚ → ℚ → DrawingData
  deriving DecidableEq, Repr

/-- ImageEditModal.tsx lines 209-238 (handleUpdate), overlay part: if the
TextAnnotation list is non-empty or hasDrawing reports content, produce the
overlay — cropped to the layout-metrics rectangle when displayWidth and
displayHeight are both positive, the full raster otherwise; produce
nothing when there is no content. -/
def handleUpdateDrawing (anns : List TextAnn) (raster : List Pixel)
    (m : LayoutMetrics) : Option DrawingData :=
  if anns.length > 0 ∨ hasDrawing raster then
    if m.displayWidth > 0 ∧ m.displayHeight > 0 then
      some (DrawingData.cropped raster m.offsetX m.offsetY m.displayWidth m.displayHeight)
    else some (DrawingData.full raster)
  else none

/-- Spec §4.4 step 2, in the spec's words: the annotation surface has
committed content when the TextAnnotation list is non-empty, or a
full-surface alpha-channel scan finds any non-transparent pixel. -/
def specHasContent (anns : List TextAnn) (raster : List Pixel) : Prop :=
  anns ≠ [] ∨ ∃ p ∈ raster, p.a ≠ 0

/-- One glyph stamp on the canvas raster (ctx.fillText of a text at a
position with a color and font size). -/
structure Stamp where
  text : String
  x : ℚ
  y : ℚ
  color : String
  size : ℚ
  deriving DecidableEq, Repr

def stampOf (a : TextAnn) : Stamp :=
  { text := a.text, x := a.x, y := a.y, color := a.color, size := a.size }

/-- The text layer of the modal: the glyph stamps currently on the canvas
and the retained TextAnnotation records. -/
structure TextLayer where
  stamps : List Stamp
  anns : List TextAnn
  deriving DecidableEq, Repr

/-- ImageEditModal.tsx lines 387-414: placing a text appends the record to
the list and stamps its glyphs onto the canvas. -/
def addTextStamp (s : TextLayer) (a : TextAnn) : TextLayer :=
  { stamps := s.stamps ++ [stampOf a], anns := s.anns ++ [a] }

/-- ImageEditModal.tsx lines 774-788, the delete handler of a text record,
with clearCanvas (lines 416-423).  The handler queues
setTextAnnotations(prev.filter(...)) and then calls clearCanvas, which
clears the whole canvas and queues setTextAnnotations([]); React applies
the queued updates in order, so the final record list is [].  The canvas is
then re-stamped from the render-time list filtered by the deleted id, in
original order. -/
def deleteTextStamp (s : TextLayer) (targetId : String) : TextLayer :=
  { stamps := (s.anns.filter (fun a => a.id != targetId)).map stampOf
  , anns := [] }

/-- A JS filter object with possibly missing fields, as stored in
InputBar's imageFilters array (declared any[], line 36). -/
structure FilterEntry where
  rotation : Option ℚ
  inverted : Option Bool
  sepia : Option Bool
  grayscale : Option Bool
  blur : Option ℚ
  brightness : Option ℚ
  contrast : Option ℚ
  deriving DecidableEq, Repr

/-- The literal appended by handleFileChange (InputBar.tsx line 73) and
handlePaste (line 91): { rotation: 0, inverted: false, sepia: false } —
the grayscale, blur, brightness and contrast fields are absent. -/
def newFilterEntry : FilterEntry :=
  { rotation := some 0, inverted := some false, sepia := some false
  , grayscale := none, blur := none, brightness := none, contrast := none }

/-- ImageEditModal's defaultFilters constant viewed as a JS object: all
seven fields present at their default values. -/
def defaultFilterEntry : FilterEntry :=
  { rotation := some 0, inverted := some false, sepia := some false
  , grayscale := some false, blur := some 0
  , brightness := some 100, contrast := some 100 }

/-- InputBar session state: the parallel preview/filters arrays and
selectedImageIndex (lines 33, 36, 38). -/
structure SessionState where
  previews : List String
  filters : List FilterEntry
  selected : ℕ
  deriving DecidableEq, Repr

/-- The JS idiom prev.filter((_, i) => i !== index): keep exactly the
elements whose position differs from idx. -/
def removeIdxJS (l : List α) (idx : ℕ) : List α :=
  (l.enum.filter (fun p => p.1 != idx)).map (fun p => p.2)

/-- InputBar.tsx lines 193-200 (removeImage): filters the entry at index
out of each parallel array; selectedImageIndex is not touched. -/
def removeImage (s : SessionState) (index : ℕ) : SessionState :=
  { previews := removeIdxJS s.previews index
  , filters := removeIdxJS s.filters index
  , selected := s.selected }

/-- InputBar.tsx lines 64-78 / 80-97: adding an image appends its preview
and the newFilterEntry literal; selectedImageIndex is not touched. -/
def addImage (s : SessionState) (preview : String) : SessionState :=
  { previews := s.previews ++ [preview]
  , filters := s.filters ++ [newFilterEntry]
  , selected := s.selected }

def addImages (s : SessionState) (previews : List String) : SessionState :=
  previews.foldl addImage s

/-- The modal-local state relevant to selection: the drawing canvas
raster, the TextAnnotation list, and the current filters object. -/
structure ModalState where
  raster : List Pixel
  anns : List TextAnn
  filters : FilterEntry
  deriving DecidableEq, Repr

/-- ctx.clearRect over the whole canvas: every pixel becomes fully
transparent (0,0,0,0); the canvas dimensions are unchanged. -/
def clearRaster (raster : List Pixel) : List Pixel :=
  raster.map (fun _ => { r := 0, g := 0, b := 0, a := 0 })

/-- Selecting image j: onSelect = setSelectedImageIndex (InputBar.tsx
line 213) together with the modal's useEffect on selectedIndex
(ImageEditModal.tsx lines 96-106), which sets the filters from
initialFilters = imageFilters[j] (falling back to defaultFilters when that
is undefined), clears the canvas with clearRect, and resets the
TextAnnotation list to []. -/
def selectImage (s : SessionState) (m : ModalState) (j : ℕ) :
    SessionState × ModalState :=
  ({ s with selected := j }
  , { raster := clearRaster m.raster
    , anns := []
    , filters := s.filters.getD j defaultFilterEntry })

/-- The editor operations that can read or write a rotation value. -/
inductive EditorOp where
  | add : EditorOp
  | rotate : EditorOp
  | reset : EditorOp
  | applyChanges : EditorOp
  | select : ℕ → EditorOp
  | remove : ℕ → EditorOp
  deriving DecidableEq, Repr

/-- The rotation component of the whole editor state: the stored rotation
of every session entry, the modal's current rotation, and the selected
index. -/
structure RotState where
  stored : List ℕ
  current : ℕ
  selected : ℕ
  deriving DecidableEq, Repr

/-- Initially the session is empty and the modal holds defaultFilters
(rotation 0). -/
def rotInit : RotState := { stored := [], current := 0, selected := 0 }

/-- Rotation effect of each operation, from the source:
add appends a stored rotation 0 (InputBar line 73/91); rotate is the
rotate button updateFilter('rotation', (rotation + 90) % 360)
(ImageEditModal line 542); reset is resetFilters (line 249);
applyChanges stores the modal value at the selected entry
(handleUpdate → handleUpdateFilters, InputBar lines 202-204); select loads
the stored value (or defaultFilters when absent) into the modal
(ImageEditModal lines 96-106); remove erases a stored entry
(InputBar lines 193-200). -/
def rotStep (s : RotState) : EditorOp → RotState
  | EditorOp.add => { s with stored := s.stored ++ [0] }
  | EditorOp.rotate => { s with current := (s.current + 90) % 360 }
  | EditorOp.reset => { s with current := 0 }
  | EditorOp.applyChanges => { s with stored := s.stored.set s.selected s.current }
  | EditorOp.select j => { s with selected := j, current := s.stored.getD j 0 }
  | EditorOp.remove i => { s with stored := removeIdxJS s.stored i }

/-- Running a sequence of editor operations from the initial state. -/
def rotRun (ops : List EditorOp) : RotState := ops.foldl rotStep rotInit

/-- The legal rotation values. -/
def rotOK (r : ℕ) : Prop := r = 0 ∨ r = 90 ∨ r = 180 ∨ r = 270

lemma enumFrom_filter_ne_of_lt {α : Type _} (l : List α) (m k : ℕ) (h : k < m) :
    (List.enumFrom m l).filter (fun p => p.1 != k) = List.enumFrom m l := by
  induction l generalizing m with
  | nil => rfl
  | cons a t ih =>
    rw [List.enumFrom_cons, List.filter_cons]
    have hcond : (m != k) = true := by simp [Nat.ne_of_gt h]
    rw [hcond, if_pos rfl, ih (m + 1) (Nat.lt_succ_of_lt h)]

lemma removeIdxJS_enumFrom {α : Type _} (l : List α) (i n : ℕ) :
    ((List.enumFrom n l).filter (fun p => p.1 != (i + n))).map (fun p => p.2) =
      l.eraseIdx i := by
  induction l generalizing n i with
  | nil => simp
  | cons a t ih =>
    cases i with
    | zero =>
      rw [List.enumFrom_cons, List.filter_cons]
      have hcond : (n != (0 + n)) = false := by simp
      rw [hcond, if_neg (by simp)]
      rw [enumFrom_filter_ne_of_lt t (n + 1) (0 + n) (by omega)]
      have : (fun p : ℕ × α => p.2) = Prod.snd := rfl
      rw [this, List.enumFrom_map_snd]
      rfl
    | succ j =>
      rw [List.enumFrom_cons, List.filter_cons]
      have hcond : (n != (j + 1 + n)) = true := by simp
      rw [hcond, if_pos rfl, List.map_cons]
      have harg : j + 1 + n = j + (n + 1) := by omega
      rw [harg, ih j (n + 1)]
      rfl

/-- The JS idiom prev.filter((_, i) => i !== index) is exactly deletion of
the element at that index. -/
lemma removeIdxJS_eq_eraseIdx {α : Type _} (l : List α) (i : ℕ) :
    removeIdxJS l i = l.eraseIdx i := by
  have h := removeIdxJS_enumFrom l i 0
  have henum : l.enum = List.enumFrom 0 l := rfl
  simpa [removeIdxJS, henum] using h

lemma pixelData_enumFrom_any (l : List Pixel) (n : ℕ) :
    ((pixelData l).enumFrom (4 * n)).any (fun p => p.1 % 4 != 3 && p.2 != 0) =
      l.any (fun p => p.r != 0 || p.g != 0 || p.b != 0) := by
  induction l generalizing n with
  | nil => rfl
  | cons p t ih =>
    have h0 : 4 * n % 4 = 0 := by omega
    have h1 : (4 * n + 1) % 4 = 1 := by omega
    have h2 : (4 * n + 1 + 1) % 4 = 2 := by omega
    have h3 : (4 * n + 1 + 1 + 1) % 4 = 3 := by omega
    have h4 : 4 * n + 1 + 1 + 1 + 1 = 4 * (n + 1) := by omega
    have hdata : pixelData (p :: t) = p.r :: p.g :: p.b :: p.a :: pixelData t := rfl
    rw [hdata, List.enumFrom_cons, List.enumFrom_cons, List.enumFrom_cons,
      List.enumFrom_cons, List.any_cons, List.any_cons, List.any_cons, List.any_cons,
      List.any_cons, h4, ih (n + 1)]
    simp only [h0, h1, h2, h3]
    simp [Bool.or_assoc]

/-- hasDrawing is a scan of the R, G and B channels: the alpha channel
(index % 4 === 3) is skipped by the predicate. -/
lemma hasDrawing_eq_any (raster : List Pixel) :
    hasDrawing raster = raster.any (fun p => p.r != 0 || p.g != 0 || p.b != 0) := by
  have h := pixelData_enumFrom_any raster 0
  have henum : (pixelData raster).enum = List.enumFrom 0 (pixelData raster) := rfl
  simpa [hasDrawing, henum] using h

lemma rotOK_zero : rotOK 0 := Or.inl rfl

lemma rotOK_rotate {r : ℕ} (h : rotOK r) : rotOK ((r + 90) % 360) := by
  unfold rotOK at h ⊢
  rcases h with rfl | rfl | rfl | rfl <;> decide

lemma rotOK_getD {l : List ℕ} (h : ∀ r ∈ l, rotOK r) (j : ℕ) : rotOK (l.getD j 0) := by
  rw [List.getD_eq_getElem?_getD]
  cases hg : l[j]? with
  | none => exact rotOK_zero
  | some v => simpa using h v (List.getElem?_mem hg)

/-- The rotation invariant: the modal's current rotation and every stored
rotation are legal values. -/
def rotInv (s : RotState) : Prop :=
  rotOK s.current ∧ ∀ r ∈ s.stored, rotOK r

lemma rotInv_step (s : RotState) (op : EditorOp) (h : rotInv s) :
    rotInv (rotStep s op) := by
  obtain ⟨hc, hs⟩ := h
  cases op with
  | add =>
    refine ⟨hc, fun r hr => ?_⟩
    rcases List.mem_append.1 hr with hr | hr
    · exact hs r hr
    · simp only [List.mem_singleton] at hr
      subst hr
      exact rotOK_zero
  | rotate => exact ⟨rotOK_rotate hc, hs⟩
  | reset => exact ⟨rotOK_zero, hs⟩
  | applyChanges =>
    refine ⟨hc, fun r hr => ?_⟩
    rcases List.mem_or_eq_of_mem_set hr with hr | rfl
    · exact hs r hr
    · exact hc
  | select j => exact ⟨rotOK_getD hs j, hs⟩
  | remove i =>
    refine ⟨hc, fun r hr => ?_⟩
    have hr2 : r ∈ s.stored.eraseIdx i := by
      rw [← removeIdxJS_eq_eraseIdx]
      exact hr
    exact hs r ((List.eraseIdx_sublist s.stored i).mem hr2)

lemma rotInv_run (ops : List EditorOp) : rotInv (rotRun ops) := by
  have h : ∀ s : RotState, rotInv s → rotInv (ops.foldl rotStep s) := by
    induction ops with
    | nil => exact fun s hv => hv
    | cons op t ih => exact fun s hv => ih (rotStep s op) (rotInv_step s op hv)
  exact h rotInit ⟨rotOK_zero, fun r hr => absurd hr (List.not_mem_nil r)⟩

/-- C1 counterexample input: a raster consisting of one opaque black
pixel.  Its alpha channel is 255 (non-transparent), but all of R, G, B
are zero. -/
def blackOpaqueRaster : List Pixel := [{ r := 0, g := 0, b := 0, a := 255 }]

/-- C1 is false as stated: on a surface holding a single opaque black
pixel and no text records, the spec's content test (alpha-channel scan)
reports content, yet handleUpdate produces no overlay data, because the
source scan at line 245 tests the R, G, B channels (index % 4 !== 3) and
skips the alpha channel. -/
theorem c1_counterexample :
    specHasContent [] blackOpaqueRaster ∧
    handleUpdateDrawing [] blackOpaqueRaster
      { offsetX := 0, offsetY := 0, displayWidth := 100, displayHeight := 100 } = none := by
  constructor
  · exact Or.inr ⟨{ r := 0, g := 0, b := 0, a := 255 }, by decide, by decide⟩
  · have h : ¬(([] : List TextAnn).length > 0 ∨ hasDrawing blackOpaqueRaster = true) := by
      decide
    unfold handleUpdateDrawing
    rw [if_neg h]

/-- C1 (amended): at export time the overlay is included iff the
TextAnnotation list is non-empty or a full-surface scan of the R, G and B
channels (the alpha channel is skipped) finds a nonzero component; when
neither holds, no overlay data is produced and the filtered base image is
returned alone. -/
theorem c1_overlay_iff (anns : List TextAnn) (raster : List Pixel) (m : LayoutMetrics) :
    ((handleUpdateDrawing anns raster m).isSome ↔
      (anns ≠ [] ∨ ∃ p ∈ raster, p.r ≠ 0 ∨ p.g ≠ 0 ∨ p.b ≠ 0)) ∧
    (handleUpdateDrawing anns raster m = none ↔
      (anns = [] ∧ ∀ p ∈ raster, p.r = 0 ∧ p.g = 0 ∧ p.b = 0)) := by
  have hC : (anns.length > 0 ∨ hasDrawing raster = true) ↔
      (anns ≠ [] ∨ ∃ p ∈ raster, p.r ≠ 0 ∨ p.g ≠ 0 ∨ p.b ≠ 0) := by
    rw [hasDrawing_eq_any]
    simp only [List.length_pos, List.any_eq_true, Bool.or_eq_true, bne_iff_ne, ne_eq,
      or_assoc]
  have hsome : (handleUpdateDrawing anns raster m).isSome = true ↔
      (anns.length > 0 ∨ hasDrawing raster = true) := by
    unfold handleUpdateDrawing
    by_cases h : anns.length > 0 ∨ hasDrawing raster = true
    · rw [if_pos h]
      by_cases h2 : m.displayWidth > 0 ∧ m.displayHeight > 0
      · rw [if_pos h2]; simp [h]
      · rw [if_neg h2]; simp [h]
    · rw [if_neg h]; simp [h]
  constructor
  · exact hsome.trans hC
  · rw [← Option.not_isSome_iff_eq_none, hsome, hC]
    push_neg
    simp

/-- C3 is false as stated: for container rect 800 by 600, source image
400 by 200 and rotation 0, updateCanvasSize does not return
offsetX 0, offsetY 100, displayWidth 800, displayHeight 400; it returns
offsetX 16, offsetY 108, displayWidth 768, displayHeight 384 because
lines 171-172 subtract 32 pixels of padding from each container
dimension before the aspect fit. -/
theorem c3_counterexample :
    updateCanvasSize 800 600 400 200 0 ≠
      { offsetX := 0, offsetY := 100, displayWidth := 800, displayHeight := 400 } ∧
    updateCanvasSize 800 600 400 200 0 =
      { offsetX := 16, offsetY := 108, displayWidth := 768, displayHeight := 384 } := by
  have he : updateCanvasSize 800 600 400 200 0 =
      { offsetX := 16, offsetY := 108, displayWidth := 768, displayHeight := 384 } := by
    unfold updateCanvasSize
    norm_num
  refine ⟨?_, he⟩
  rw [he]
  intro h
  have h1 : (16 : ℚ) = 0 := congrArg LayoutMetrics.offsetX h
  norm_num at h1

/-- C3 (amended): for container rect 800 by 600, source image 400 by 200
and rotation 0, the layout computation subtracts the 32-pixel padding from
each container dimension before the width-constrained fit and centres
against the full container rect, returning displayWidth 768,
displayHeight 384, offsetX 16, offsetY 108. -/
theorem c3_layout :
    updateCanvasSize 800 600 400 200 0 =
      { offsetX := 16, offsetY := 108, displayWidth := 768, displayHeight := 384 } := by
  unfold updateCanvasSize
  norm_num

/-- C4 counterexample session: two entries, the second one active. -/
def c4Session : SessionState :=
  { previews := ["a", "b"], filters := [newFilterEntry, newFilterEntry], selected := 1 }

/-- C4 is false as stated: removing the active last entry (index 1 of 2)
deletes the entry but leaves selectedImageIndex at 1, not at
min(1, len-1) = 0, and the invariant activeIndex < len(entries) fails on
the resulting non-empty session. -/
theorem c4_counterexample :
    (removeImage c4Session 1).selected = 1 ∧
    (removeImage c4Session 1).previews.length = 1 ∧
    ¬((removeImage c4Session 1).selected < (removeImage c4Session 1).previews.length) ∧
    (removeImage c4Session 1).selected ≠
      min 1 ((removeImage c4Session 1).previews.length - 1) := by
  refine ⟨rfl, rfl, ?_, ?_⟩ <;> decide

/-- C4 (amended): removeImage deletes exactly the entry at index i from
every parallel array and leaves the active index unchanged; consequently
the invariant 0 ≤ activeIndex < len(entries) is not maintained by
removeImage (it fails when the removed entry was the last one and
active). -/
theorem c4_removeImage (s : SessionState) (i : ℕ) :
    (removeImage s i).previews = s.previews.eraseIdx i ∧
    (removeImage s i).filters = s.filters.eraseIdx i ∧
    (removeImage s i).selected = s.selected :=
  ⟨removeIdxJS_eq_eraseIdx s.previews i, removeIdxJS_eq_eraseIdx s.filters i, rfl⟩

/-- C6: applyFilters returns exactly the descriptors of the fields
differing from their defaults (inverted/sepia/grayscale when true, blur
when positive, brightness/contrast when not 100), in the fixed order
invert, sepia, grayscale, blur, brightness, contrast; at the all-defaults
value it returns the empty chain; and the chain never depends on
rotation. -/
theorem c6_filter_chain :
    (∀ f : ImageFilters, applyFilters f = renderFilterChainSpec f) ∧
    applyFilters defaultFilters = [] ∧
    (∀ (f : ImageFilters) (q : ℚ), applyFilters { f with rotation := q } = applyFilters f) := by
  refine ⟨?_, ?_, ?_⟩
  · intro f
    obtain ⟨rot, inv, sep, gray, bl, br, con⟩ := f
    unfold applyFilters renderFilterChainSpec defaultFilters
    cases inv <;> cases sep <;> cases gray <;> simp
  · unfold applyFilters defaultFilters
    norm_num
  · intro f q
    cases f
    rfl

/-- C10: in every editor state reachable by any sequence of operations
(adding images, the rotate button, reset, applying changes, selecting an
image, removing an image), the modal's current rotation and every stored
entry rotation lie in {0, 90, 180, 270}. -/
theorem c10_rotation_invariant (ops : List EditorOp) :
    rotOK (rotRun ops).current ∧ ∀ r ∈ (rotRun ops).stored, rotOK r :=
  rotInv_run ops

/-- C2 counterexample inputs: a two-entry session with entry 0 active, and
a modal whose annotation surface holds one text record and one painted
white pixel. -/
def c2Ann : TextAnn :=
  { id := "1", text := "hi", x := 10, y := 20, color := "#ffffff", size := 9 }

def c2Modal : ModalState :=
  { raster := [{ r := 255, g := 255, b := 255, a := 255 }]
  , anns := [c2Ann]
  , filters := defaultFilterEntry }

def c2Session : SessionState :=
  { previews := ["a", "b"], filters := [newFilterEntry, newFilterEntry], selected := 0 }

/-- C2 is false as stated: selecting image 1 and then selecting image 0
again presents an empty annotation surface — the modal's useEffect on
selectedIndex clears the canvas and resets the TextAnnotation list on
every selection, and no per-entry annotation state is stored (onUpdate =
handleUpdateFilters drops the drawingData argument). -/
theorem c2_counterexample :
    (selectImage (selectImage c2Session c2Modal 1).1 (selectImage c2Session c2Modal 1).2 0).2.anns
        = [] ∧
    (selectImage (selectImage c2Session c2Modal 1).1 (selectImage c2Session c2Modal 1).2 0).2.anns
        ≠ c2Modal.anns ∧
    (selectImage (selectImage c2Session c2Modal 1).1 (selectImage c2Session c2Modal 1).2 0).2.raster
        ≠ c2Modal.raster := by
  refine ⟨rfl, ?_, ?_⟩ <;> decide

/-- C2 (amended): selecting image j switches the active index and loads
entry j's stored filters into the modal, but clears the annotation raster
and resets the TextAnnotation list (annotation state does not persist per
entry across selections); the per-entry stored filter state itself is
untouched by selection, so only filter state persists independently. -/
theorem c2_select_effect (s : SessionState) (m : ModalState) (j i : ℕ) :
    (selectImage s m j).1.previews = s.previews ∧
    (selectImage s m j).1.filters = s.filters ∧
    (selectImage s m j).1.selected = j ∧
    (selectImage s m j).2.anns = [] ∧
    (selectImage s m j).2.raster = clearRaster m.raster ∧
    (selectImage s m j).2.filters = s.filters.getD j defaultFilterEntry ∧
    (selectImage (selectImage s m j).1 (selectImage s m j).2 i).2.anns = [] ∧
    (selectImage (selectImage s m j).1 (selectImage s m j).2 i).2.filters
      = s.filters.getD i defaultFilterEntry :=
  ⟨rfl, rfl, rfl, rfl, rfl, rfl, rfl, rfl⟩

/-- C5 concrete inputs: two placed text annotations with distinct ids. -/
def c5Ann1 : TextAnn :=
  { id := "1", text := "first", x := 10, y := 20, color := "#ffffff", size := 9 }

def c5Ann2 : TextAnn :=
  { id := "2", text := "second", x := 30, y := 40, color := "#ff0000", size := 12 }

/-- C5: evaluating the delete handler on a surface holding exactly the two
annotations and deleting the first.  The raster is rebuilt correctly —
only the second annotation's glyphs remain, at its originally recorded
position — but the retained TextAnnotation list ends up empty instead of
holding exactly the second record, because clearCanvas's
setTextAnnotations([]) is queued after the handler's filtered update and
wins. -/
theorem c5_delete_eval :
    (deleteTextStamp (addTextStamp (addTextStamp { stamps := [], anns := [] } c5Ann1) c5Ann2)
        "1").stamps = [stampOf c5Ann2] ∧
    (deleteTextStamp (addTextStamp (addTextStamp { stamps := [], anns := [] } c5Ann1) c5Ann2)
        "1").anns = [] ∧
    (deleteTextStamp (addTextStamp (addTextStamp { stamps := [], anns := [] } c5Ann1) c5Ann2)
        "1").anns ≠ [c5Ann2] := by
  refine ⟨rfl, rfl, ?_⟩
  decide

/-- Aspect-preservation core of the letterbox fit: for positive padded
container dimensions c, d and positive effective image dimensions a, b,
the fitted display rectangle has width/height ratio exactly a/b. -/
lemma fit_ratio (c d a b : ℚ) (hc : 0 < c) (hd : 0 < d) (ha : 0 < a) (hb : 0 < b) :
    (if a / b > c / d then c else d * (a / b)) /
      (if a / b > c / d then c / (a / b) else d) = a / b := by
  have hA : 0 < a / b := div_pos ha hb
  by_cases h : a / b > c / d
  · rw [if_pos h, if_pos h]
    field_simp
    ring
  · rw [if_neg h, if_neg h]
    rw [mul_comm, mul_div_assoc, div_self hd.ne', mul_one]

lemma updateCanvasSize_not_rotated (crW crH imgW imgH rot : ℚ)
    (h : ¬(rot = 90 ∨ rot = 270)) :
    (updateCanvasSize crW crH imgW imgH rot).displayWidth =
      (if imgW / imgH > (crW - 32) / (crH - 32) then crW - 32
       else (crH - 32) * (imgW / imgH)) ∧
    (updateCanvasSize crW crH imgW imgH rot).displayHeight =
      (if imgW / imgH > (crW - 32) / (crH - 32) then (crW - 32) / (imgW / imgH)
       else crH - 32) := by
  simp [updateCanvasSize, if_neg h]

lemma updateCanvasSize_rotated (crW crH imgW imgH rot : ℚ)
    (h : rot = 90 ∨ rot = 270) :
    (updateCanvasSize crW crH imgW imgH rot).displayWidth =
      (if imgH / imgW > (crW - 32) / (crH - 32) then crW - 32
       else (crH - 32) * (imgH / imgW)) ∧
    (updateCanvasSize crW crH imgW imgH rot).displayHeight =
      (if imgH / imgW > (crW - 32) / (crH - 32) then (crW - 32) / (imgH / imgW)
       else crH - 32) := by
  simp [updateCanvasSize, if_pos h]

/-- C7 is false as stated: the container rect 32 by 600 has positive
dimensions, yet for source image 400 by 200 at rotation 0 the padded
container width is 32 - 32 = 0, so the computed display rectangle is
degenerate (width and height both 0) and its ratio is not the source
aspect ratio 2. -/
theorem c7_counterexample :
    (updateCanvasSize 32 600 400 200 0).displayWidth = 0 ∧
    (updateCanvasSize 32 600 400 200 0).displayHeight = 0 ∧
    (updateCanvasSize 32 600 400 200 0).displayWidth /
        (updateCanvasSize 32 600 400 200 0).displayHeight ≠ (400 : ℚ) / 200 := by
  have h := updateCanvasSize_not_rotated 32 600 400 200 0 (by norm_num)
  rw [h.1, h.2]
  norm_num

/-- C7 (amended): whenever both container rect dimensions exceed the
32-pixel padding (so the padded dimensions are positive) and the source
dimensions are positive, the display rectangle's width/height ratio equals
sourceWidth/sourceHeight for rotation 0 or 180, and
sourceHeight/sourceWidth for rotation 90 or 270. -/
theorem c7_aspect (crW crH imgW imgH rot : ℚ)
    (hcw : 32 < crW) (hch : 32 < crH) (hw : 0 < imgW) (hh : 0 < imgH) :
    ((rot = 0 ∨ rot = 180) →
      (updateCanvasSize crW crH imgW imgH rot).displayWidth /
        (updateCanvasSize crW crH imgW imgH rot).displayHeight = imgW / imgH) ∧
    ((rot = 90 ∨ rot = 270) →
      (updateCanvasSize crW crH imgW imgH rot).displayWidth /
        (updateCanvasSize crW crH imgW imgH rot).displayHeight = imgH / imgW) := by
  have key : ∀ a b : ℚ, 0 < a → 0 < b →
      (if a / b > (crW - 32) / (crH - 32) then crW - 32
        else (crH - 32) * (a / b)) /
        (if a / b > (crW - 32) / (crH - 32) then (crW - 32) / (a / b)
          else crH - 32) = a / b :=
    fun a b ha hb => fit_ratio (crW - 32) (crH - 32) a b (by linarith) (by linarith) ha hb
  constructor
  · intro hrot
    have hnr : ¬(rot = 90 ∨ rot = 270) := by
      rcases hrot with rfl | rfl <;> norm_num
    have h := updateCanvasSize_not_rotated crW crH imgW imgH rot hnr
    rw [h.1, h.2]
    exact key imgW imgH hw hh
  · intro hrot
    have h := updateCanvasSize_rotated crW crH imgW imgH rot hrot
    rw [h.1, h.2]
    exact key imgH imgW hh hw

/-- Witness for C7 (amended): container rect 832 by 632, source 400 by
200, rotation 90 — the hypotheses hold and the conclusion instantiates. -/
theorem c7_aspect_witness :
    (32 : ℚ) < 832 ∧ (32 : ℚ) < 632 ∧ (0 : ℚ) < 400 ∧ (0 : ℚ) < 200 ∧
    ((((90 : ℚ) = 0 ∨ (90 : ℚ) = 180) →
      (updateCanvasSize 832 632 400 200 90).displayWidth /
        (updateCanvasSize 832 632 400 200 90).displayHeight = (400 : ℚ) / 200) ∧
     (((90 : ℚ) = 90 ∨ (90 : ℚ) = 270) →
      (updateCanvasSize 832 632 400 200 90).displayWidth /
        (updateCanvasSize 832 632 400 200 90).displayHeight = (200 : ℚ) / 400)) :=
  ⟨by norm_num, by norm_num, by norm_num, by norm_num,
    c7_aspect 832 632 400 200 90 (by norm_num) (by norm_num) (by norm_num) (by norm_num)⟩

/-- C8 is false as stated: the entry appended on adding an image is the
literal { rotation: 0, inverted: false, sepia: false }; the grayscale,
blur, brightness and contrast fields are absent, so the entry does not
carry the complete seven-field default FilterParameters. -/
theorem c8_counterexample :
    (addImage { previews := [], filters := [], selected := 0 } "img").filters
        = [newFilterEntry] ∧
    newFilterEntry.grayscale = none ∧
    newFilterEntry.blur = none ∧
    newFilterEntry.brightness = none ∧
    newFilterEntry.contrast = none ∧
    newFilterEntry ≠ defaultFilterEntry := by
  refine ⟨rfl, rfl, rfl, rfl, rfl, ?_⟩
  intro h
  have hg := congrArg FilterEntry.grayscale h
  simp [newFilterEntry, defaultFilterEntry] at hg

/-- C8 (amended): every entry appended by adding images (file pick or
paste) is initialized with exactly rotation 0, inverted false and sepia
false; the grayscale, blur, brightness and contrast fields are absent
until the edit modal first writes the entry back; the active index is
unchanged. -/
theorem c8_addImages (s : SessionState) (previews : List String) :
    (addImages s previews).filters = s.filters ++ previews.map (fun _ => newFilterEntry) ∧
    (addImages s previews).previews = s.previews ++ previews ∧
    (addImages s previews).selected = s.selected ∧
    newFilterEntry.rotation = some 0 ∧
    newFilterEntry.inverted = some false ∧
    newFilterEntry.sepia = some false ∧
    newFilterEntry.grayscale = none ∧
    newFilterEntry.blur = none ∧
    newFilterEntry.brightness = none ∧
    newFilterEntry.contrast = none := by
  refine ⟨?_, ?_, ?_, rfl, rfl, rfl, rfl, rfl, rfl, rfl⟩ <;>
  · induction previews generalizing s with
    | nil => simp [addImages]
    | cons p t ih =>
      simp only [addImages, List.foldl_cons] at ih ⊢
      rw [ih (addImage s p)]
      simp [addImage]

/-- C9: at export time with committed overlay content, degenerate layout
metrics (displayWidth or displayHeight zero or negative) make handleUpdate
fall back to the full uncropped annotation raster, and positive metrics
make it crop to exactly the rectangle
(offsetX, offsetY, displayWidth, displayHeight). -/
theorem c9_crop_fallback (anns : List TextAnn) (raster : List Pixel) (m : LayoutMetrics)
    (hcontent : anns.length > 0 ∨ hasDrawing raster = true) :
    ((m.displayWidth ≤ 0 ∨ m.displayHeight ≤ 0) →
      handleUpdateDrawing anns raster m = some (DrawingData.full raster)) ∧
    ((0 < m.displayWidth ∧ 0 < m.displayHeight) →
      handleUpdateDrawing anns raster m =
        some (DrawingData.cropped raster m.offsetX m.offsetY m.displayWidth m.displayHeight)) := by
  constructor
  · intro hz
    unfold handleUpdateDrawing
    rw [if_pos hcontent, if_neg]
    intro hp
    rcases hz with hz | hz
    · exact absurd hp.1 (not_lt.2 hz)
    · exact absurd hp.2 (not_lt.2 hz)
  · intro hp
    unfold handleUpdateDrawing
    rw [if_pos hcontent, if_pos hp]

/-- Witness for C9: one text record, an empty raster, and layout metrics
with displayWidth -1 (degenerate) — the content hypothesis holds and both
implications instantiate. -/
theorem c9_crop_fallback_witness :
    (([{ id := "9", text := "t", x := 1, y := 2, color := "#fff", size := 3 }] :
        List TextAnn).length > 0 ∨ hasDrawing [] = true) ∧
    ((((({ offsetX := 5, offsetY := 6, displayWidth := -1, displayHeight := 7 } :
          LayoutMetrics)).displayWidth ≤ 0 ∨
       (({ offsetX := 5, offsetY := 6, displayWidth := -1, displayHeight := 7 } :
          LayoutMetrics)).displayHeight ≤ 0) →
      handleUpdateDrawing [{ id := "9", text := "t", x := 1, y := 2, color := "#fff", size := 3 }] []
          { offsetX := 5, offsetY := 6, displayWidth := -1, displayHeight := 7 } =
        some (DrawingData.full [])) ∧
     (((0 : ℚ) < (({ offsetX := 5, offsetY := 6, displayWidth := -1, displayHeight := 7 } :
          LayoutMetrics)).displayWidth ∧
       (0 : ℚ) < (({ offsetX := 5, offsetY := 6, displayWidth := -1, displayHeight := 7 } :
          LayoutMetrics)).displayHeight) →
      handleUpdateDrawing [{ id := "9", text := "t", x := 1, y := 2, color := "#fff", size := 3 }] []
          { offsetX := 5, offsetY := 6, displayWidth := -1, displayHeight := 7 } =
        some (DrawingData.cropped [] 5 6 (-1) 7))) :=
  ⟨Or.inl (by decide),
    c9_crop_fallback [{ id := "9", text := "t", x := 1, y := 2, color := "#fff", size := 3 }] []
      { offsetX := 5, offsetY := 6, displayWidth := -1, displayHeight := 7 }
      (Or.inl (by decide))⟩
